import Mathlib

/-!
Verification development for the random-work generator's core:
the search-result cache (`search_cache.py`) and the resilient fetch
orchestrator (`ao3_service.py`).

Modelling conventions:
- Python machine state that the code touches (the JSON cache file, the
  cache directory, clock time, `random` draws) is passed explicitly.
- Code that can raise an exception that escapes the function is embedded
  in `Except PyErr`; a `try/except` that swallows the exception is
  embedded by returning the fallback value directly.
- Python dict truthiness (`if not entry`, `if cached.get('results')`)
  is modelled where the code relies on it.
-/

/-- A work record as built by `fetch_random_work` in `ao3_service.py`
(title, author, url, rating, word_count).  The core stores and selects
these records; it never computes over the fields. -/
structure Item where
  title : String
  author : String
  url : String
  rating : String
  word_count : String
deriving DecidableEq, Repr

/-- The `AO3ErrorType` enum of `ao3_service.py`. -/
inductive AO3ErrorType where
  | NONE
  | TIMEOUT
  | EMPTY_RESPONSE
  | NETWORK_ERROR
  | PARSE_ERROR
  | HTTP_ERROR
deriving DecidableEq, Repr

/-- An exception escaping a Python function.  The only uncaught exception
site in the modelled code is `os.makedirs` in `_ensure_cache_dir`
(an `OSError`). -/
inductive PyErr where
  | osError
deriving DecidableEq, Repr

/-- Oracle for the filesystem behaviour the cache layer depends on:
whether the cache directory already exists, whether `os.makedirs`
succeeds, and whether opening/writing the cache file succeeds. -/
structure FSOracle where
  dirExists : Bool
  mkdirOk : Bool
  writeOk : Bool
deriving DecidableEq, Repr

/-- One entry of the JSON cache document.  `set_cached_results` always
writes both fields; an entry loaded from a hand-edited or older file may
miss either, hence the `Option`s (modelling `entry.get(...)`).
The model restricts a present `results` value to a list of items, which
is what `set_cached_results` writes. -/
structure CacheEntryJson where
  results : Option (List Item)
  timestamp : Option Int
deriving DecidableEq, Repr

/-- Python dict truthiness of a cache entry: an empty dict is falsy.
In this model an entry is the empty dict exactly when both fields are
absent. -/
def entryTruthy (e : CacheEntryJson) : Bool :=
  e.results.isSome || e.timestamp.isSome

/-- State of the cache file on disk: absent, present but not valid JSON,
or a valid JSON document (a dict keyed by cache key). -/
inductive CacheFile where
  | missing
  | corrupt
  | valid (entries : List (String × CacheEntryJson))
deriving DecidableEq, Repr

/-- Lookup in a Python dict modelled as an association list. -/
def alGet {α : Type} : List (String × α) → String → Option α
  | [], _ => Option.none
  | (k', v) :: t, k => if k' = k then some v else alGet t k

/-- Assignment `d[k] = v` in a Python dict modelled as an association
list: overwrite in place, or append. -/
def alInsert {α : Type} : List (String × α) → String → α → List (String × α)
  | [], k, v => [(k, v)]
  | (k', v') :: t, k, v => if k' = k then (k, v) :: t else (k', v') :: alInsert t k v

/-- The dict returned by `get_cached_results`: the stored results (the
`results` key, `None` when the entry lacked it), the computed staleness
flag and the age in seconds. -/
structure CachedLookup where
  results : Option (List Item)
  stale : Bool
  age_seconds : Int
deriving DecidableEq, Repr

/-- `DEFAULT_TTL_SECONDS` from `search_cache.py`. -/
def DEFAULT_TTL_SECONDS : Int := 3600

/-- `_ensure_cache_dir` from `search_cache.py`: `os.makedirs` when the
directory does not exist.  A `makedirs` failure raises (there is no
`try` here). -/
def _ensure_cache_dir (fs : FSOracle) : Except PyErr Unit :=
  if fs.dirExists then Except.ok ()
  else if fs.mkdirOk then Except.ok ()
  else Except.error PyErr.osError

/-- `_load_cache` from `search_cache.py`: a missing file yields the empty
dict, and `json.JSONDecodeError` / `IOError` are caught and also yield
the empty dict, so loading never raises. -/
def _load_cache : CacheFile → List (String × CacheEntryJson)
  | CacheFile.missing => []
  | CacheFile.corrupt => []
  | CacheFile.valid m => m

/-- `_save_cache` from `search_cache.py`: `_ensure_cache_dir()` runs
before the `try` block, so its failure propagates; an `IOError` from
opening or writing the file is caught and swallowed (the file keeps its
previous state). -/
def _save_cache (fs : FSOracle) (cache : List (String × CacheEntryJson))
    (current : CacheFile) : Except PyErr CacheFile :=
  match _ensure_cache_dir fs with
  | Except.error e => Except.error e
  | Except.ok _ =>
    if fs.writeOk then Except.ok (CacheFile.valid cache)
    else Except.ok current

/-- `get_cached_results` from `search_cache.py`.  `now` stands for
`time.time()`.  Mirrors: load, `cache.get(key)`, the `if not entry`
truthiness check, `entry.get('results')`, `entry.get('timestamp', 0)`,
`age > ttl_seconds`. -/
def get_cached_results (file : CacheFile) (cache_key : String)
    (ttl_seconds : Int) (now : Int) : Option CachedLookup :=
  let cache := _load_cache file
  match alGet cache cache_key with
  | Option.none => Option.none
  | some entry =>
    if entryTruthy entry then
      let timestamp := entry.timestamp.getD 0
      let age := now - timestamp
      some { results := entry.results, stale := decide (age > ttl_seconds), age_seconds := age }
    else
      Option.none

/-- `set_cached_results` from `search_cache.py`: load the whole document,
assign the entry with the current timestamp, save. -/
def set_cached_results (fs : FSOracle) (file : CacheFile) (cache_key : String)
    (results : List Item) (now : Int) : Except PyErr CacheFile :=
  let cache := _load_cache file
  let cache2 := alInsert cache cache_key { results := some results, timestamp := some now }
  _save_cache fs cache2 file

/-- Lower-casing of one character, as `str.lower()` does on the ASCII
range (the tags and fandoms handled by the app are ASCII; full Unicode
case mapping is outside this model). -/
def lowerChar (c : Char) : Char :=
  if 'A' ≤ c ∧ c ≤ 'Z' then Char.ofNat (c.toNat + 32) else c

/-- `str.lower()`. -/
def pyLower (s : String) : String := String.mk (s.data.map lowerChar)

/-- Whitespace stripped by `str.strip()` (ASCII range). -/
def isSpaceChar (c : Char) : Bool :=
  c = ' ' || c = '\t' || c = '\n' || c = '\r' || c = '\x0b' || c = '\x0c'

/-- `str.strip()`: drop leading and trailing whitespace. -/
def pyStrip (s : String) : String :=
  String.mk (((s.data.dropWhile isSpaceChar).reverse.dropWhile isSpaceChar).reverse)

/-- The tag normalisation `t.lower().strip()` from `get_cache_key`. -/
def normTag (t : String) : String := pyStrip (pyLower t)

/-- The fandom normalisation `fandom.lower().strip()` from `get_cache_key`. -/
def normFandom (f : String) : String := pyStrip (pyLower f)

/-- Python `sorted` on strings: ascending by code points.  Lean's
`String` order is the same lexicographic code-point order. -/
def pySorted (l : List String) : List String :=
  List.insertionSort (fun a b => a ≤ b) l

/-- Escape of one character inside a JSON string literal, as
`json.dumps` produces with its default `ensure_ascii=True`: printable
ASCII other than quote and backslash is kept, everything else becomes a
short escape or a `\uXXXX` escape (surrogate pairs above the BMP). -/
def hexDigitChar (n : Nat) : Char :=
  "0123456789abcdef".data.getD n '0'

/-- Four lowercase hex digits of a number below 65536. -/
def hex4 (n : Nat) : String :=
  String.mk [hexDigitChar (n / 4096 % 16), hexDigitChar (n / 256 % 16),
             hexDigitChar (n / 16 % 16), hexDigitChar (n % 16)]

/-- JSON escape of one character (see `hexDigitChar`). -/
def jsonEscapeChar (c : Char) : String :=
  if c = '"' then "\\\""
  else if c = '\\' then "\\\\"
  else if c = '\n' then "\\n"
  else if c = '\t' then "\\t"
  else if c = '\r' then "\\r"
  else if c = '\x08' then "\\b"
  else if c = '\x0c' then "\\f"
  else if c.toNat < 32 || c.toNat > 126 then
    if c.toNat ≤ 65535 then "\\u" ++ hex4 c.toNat
    else
      "\\u" ++ hex4 (55296 + (c.toNat - 65536) / 1024) ++
      "\\u" ++ hex4 (56320 + (c.toNat - 65536) % 1024)
  else String.mk [c]

/-- A JSON string literal for `s`. -/
def jsonStr (s : String) : String :=
  "\"" ++ String.join (s.data.map jsonEscapeChar) ++ "\""

/-- A JSON array of string literals, `json.dumps` default separators. -/
def jsonList (l : List String) : String :=
  "[" ++ String.intercalate ", " (l.map jsonStr) ++ "]"

/-- The serialised normalised dict built inside `get_cache_key`:
`json.dumps(normalized, sort_keys=True)`.  Keys in sorted order are
`categories`, `fandom`, `tags`; the `if tags else []`-style guards mirror
Python truthiness of the arguments. -/
def key_str (tags categories : List String) (fandom : String) : String :=
  "\x7b\"categories\": " ++
    jsonList (if categories.isEmpty then [] else pySorted categories) ++
  ", \"fandom\": " ++
    jsonStr (if fandom = "" then "" else normFandom fandom) ++
  ", \"tags\": " ++
    jsonList (if tags.isEmpty then [] else pySorted (tags.map normTag)) ++
  "\x7d"

/-- Two to the thirty-second power, the modulus of 32-bit words. -/
def M32 : Nat := 4294967296

/-- Right rotation of a 32-bit word. -/
def rotr32 (x n : Nat) : Nat := (x / 2 ^ n + x % 2 ^ n * 2 ^ (32 - n)) % M32

/-- Logical right shift of a 32-bit word. -/
def shr32 (x n : Nat) : Nat := x / 2 ^ n

/-- Bitwise complement within 32 bits. -/
def not32 (x : Nat) : Nat := x ^^^ 4294967295

/-- SHA-256 big sigma 0. -/
def bigSigma0 (x : Nat) : Nat := rotr32 x 2 ^^^ rotr32 x 13 ^^^ rotr32 x 22

/-- SHA-256 big sigma 1. -/
def bigSigma1 (x : Nat) : Nat := rotr32 x 6 ^^^ rotr32 x 11 ^^^ rotr32 x 25

/-- SHA-256 small sigma 0. -/
def smallSigma0 (x : Nat) : Nat := rotr32 x 7 ^^^ rotr32 x 18 ^^^ shr32 x 3

/-- SHA-256 small sigma 1. -/
def smallSigma1 (x : Nat) : Nat := rotr32 x 17 ^^^ rotr32 x 19 ^^^ shr32 x 10

/-- SHA-256 choose function. -/
def shaCh (x y z : Nat) : Nat := (x &&& y) ^^^ (not32 x &&& z)

/-- SHA-256 majority function. -/
def shaMaj (x y z : Nat) : Nat := (x &&& y) ^^^ (x &&& z) ^^^ (y &&& z)

/-- The 64 SHA-256 round constants. -/
def shaK : List Nat :=
  [1116352408, 1899447441, 3049323471, 3921009573, 961987163,
   1508970993, 2453635748, 2870763221, 3624381080, 310598401,
   607225278, 1426881987, 1925078388, 2162078206, 2614888103,
   3248222580, 3835390401, 4022224774, 264347078, 604807628,
   770255983, 1249150122, 1555081692, 1996064986, 2554220882,
   2821834349, 2952996808, 3210313671, 3336571891, 3584528711,
   113926993, 338241895, 666307205, 773529912, 1294757372,
   1396182291, 1695183700, 1986661051, 2177026350, 2456956037,
   2730485921, 2820302411, 3259730800, 3345764771, 3516065817,
   3600352804, 4094571909, 275423344, 430227734, 506948616,
   659060556, 883997877, 958139571, 1322822218, 1537002063,
   1747873779, 1955562222, 2024104815, 2227730452, 2361852424,
   2428436474, 2756734187, 3204031479, 3329325298]

/-- The initial SHA-256 hash value. -/
def shaH0 : List Nat :=
  [1779033703, 3144134277, 1013904242, 2773480762,
   1359893119, 2600822924, 528734635, 1541459225]

/-- UTF-8 encoding of one character as a list of bytes. -/
def utf8Char (c : Char) : List Nat :=
  let n := c.toNat
  if n < 128 then [n]
  else if n < 2048 then [192 + n / 64, 128 + n % 64]
  else if n < 65536 then [224 + n / 4096, 128 + n / 64 % 64, 128 + n % 64]
  else [240 + n / 262144, 128 + n / 4096 % 64, 128 + n / 64 % 64, 128 + n % 64]

/-- UTF-8 encoding of a string, as `str.encode()` produces. -/
def utf8Bytes (s : String) : List Nat := (s.data.map utf8Char).flatten

/-- SHA-256 message padding: append `0x80`, zeros to 56 mod 64 bytes,
then the bit length as eight big-endian bytes. -/
def shaPad (msg : List Nat) : List Nat :=
  let L := msg.length
  let bitLen := L * 8
  let z := (119 - L % 64) % 64
  msg ++ [128] ++ List.replicate z 0 ++
    [bitLen / 2 ^ 56 % 256, bitLen / 2 ^ 48 % 256, bitLen / 2 ^ 40 % 256,
     bitLen / 2 ^ 32 % 256, bitLen / 2 ^ 24 % 256, bitLen / 2 ^ 16 % 256,
     bitLen / 2 ^ 8 % 256, bitLen % 256]

/-- Grouping of bytes into big-endian 32-bit words. -/
def bytesToWords : List Nat → List Nat
  | a :: b :: c :: d :: t => (((a * 256 + b) * 256 + c) * 256 + d) :: bytesToWords t
  | _ => []

/-- Grouping of words into 16-word blocks. -/
def chunk16 : List Nat → List (List Nat)
  | w0 :: w1 :: w2 :: w3 :: w4 :: w5 :: w6 :: w7 ::
    w8 :: w9 :: w10 :: w11 :: w12 :: w13 :: w14 :: w15 :: t =>
    [w0, w1, w2, w3, w4, w5, w6, w7, w8, w9, w10, w11, w12, w13, w14, w15] ::
      chunk16 t
  | _ => []

/-- Extension of a 16-word block to the 64-word message schedule; the
first argument is the number of words still to append. -/
def extendSchedule : Nat → List Nat → List Nat
  | 0, w => w
  | n + 1, w =>
    let i := w.length
    let x := (smallSigma1 (w.getD (i - 2) 0) + w.getD (i - 7) 0 +
              smallSigma0 (w.getD (i - 15) 0) + w.getD (i - 16) 0) % M32
    extendSchedule n (w ++ [x])

/-- The eight working variables of the SHA-256 compression loop. -/
structure SHAState where
  a : Nat
  b : Nat
  c : Nat
  d : Nat
  e : Nat
  f : Nat
  g : Nat
  h : Nat
deriving Repr

/-- One round of the SHA-256 compression loop; the pair holds the round
constant and the schedule word. -/
def compressStep (s : SHAState) (kw : Nat × Nat) : SHAState :=
  let t1 := (s.h + bigSigma1 s.e + shaCh s.e s.f s.g + kw.1 + kw.2) % M32
  let t2 := (bigSigma0 s.a + shaMaj s.a s.b s.c) % M32
  { a := (t1 + t2) % M32, b := s.a, c := s.b, d := s.c,
    e := (s.d + t1) % M32, f := s.e, g := s.f, h := s.g }

/-- Processing of one 16-word block into the running hash value. -/
def processBlock (h : List Nat) (block : List Nat) : List Nat :=
  let w := extendSchedule 48 block
  let s0 : SHAState :=
    { a := h.getD 0 0, b := h.getD 1 0, c := h.getD 2 0, d := h.getD 3 0,
      e := h.getD 4 0, f := h.getD 5 0, g := h.getD 6 0, h := h.getD 7 0 }
  let s := (shaK.zip w).foldl compressStep s0
  [(h.getD 0 0 + s.a) % M32, (h.getD 1 0 + s.b) % M32,
   (h.getD 2 0 + s.c) % M32, (h.getD 3 0 + s.d) % M32,
   (h.getD 4 0 + s.e) % M32, (h.getD 5 0 + s.f) % M32,
   (h.getD 6 0 + s.g) % M32, (h.getD 7 0 + s.h) % M32]

/-- Eight lowercase hex digits of a 32-bit word. -/
def toHex8 (x : Nat) : String :=
  String.mk [hexDigitChar (x / 2 ^ 28 % 16), hexDigitChar (x / 2 ^ 24 % 16),
             hexDigitChar (x / 2 ^ 20 % 16), hexDigitChar (x / 2 ^ 16 % 16),
             hexDigitChar (x / 2 ^ 12 % 16), hexDigitChar (x / 2 ^ 8 % 16),
             hexDigitChar (x / 2 ^ 4 % 16), hexDigitChar (x % 16)]

/-- The lowercase hex digest of SHA-256 of a string,
`hashlib.sha256(key_str.encode()).hexdigest()`. -/
def sha256hex (s : String) : String :=
  let blocks := chunk16 (bytesToWords (shaPad (utf8Bytes s)))
  String.join ((blocks.foldl processBlock shaH0).map toHex8)

/-- `get_cache_key` from `search_cache.py`: serialise the normalised
filter and keep the first sixteen hex digits of its SHA-256. -/
def get_cache_key (tags categories : List String) (fandom : String) : String :=
  (sha256hex (key_str tags categories fandom)).take 16

/-- Floor of the base-two logarithm, computed with a fuel argument so
that it reduces structurally (the fuel is consumed once per halving). -/
def log2fuel : Nat → Nat → Nat
  | 0, _ => 0
  | fuel + 1, n => if n < 2 then 0 else log2fuel fuel (n / 2) + 1

/-- The value of `math.ceil(n / 20)` in Python: `n / 20` is binary64
true division (round to nearest, ties to even, 53-bit significand),
then an exact ceiling.  Binary64 overflow (`n` near `20 * 2 ** 1024`)
is outside this model. -/
def pageCountFloat (n : Nat) : Nat :=
  if n = 0 then 0
  else
    let e : Int := (log2fuel (n * 1024 / 20) (n * 1024 / 20) : Int) - 10
    let s : Int := 52 - e
    let num : Nat := if 0 ≤ s then n * 2 ^ s.toNat else n
    let den : Nat := if 0 ≤ s then 20 else 20 * 2 ^ (-s).toNat
    let q := num / den
    let r := num % den
    let m0 := q + (if den < 2 * r then 1 else if 2 * r < den then 0 else q % 2)
    let m := if m0 = 2 ^ 53 then 2 ^ 52 else m0
    let e2 : Int := if m0 = 2 ^ 53 then e + 1 else e
    if 52 ≤ e2 then m * 2 ^ (e2 - 52).toNat
    else (m + 2 ^ (52 - e2).toNat - 1) / 2 ^ (52 - e2).toNat

/-- View of the search-results page the parsing layer hands to
`get_page_count`: the `h3.heading` element when present, and whether any
`li.work` result items are on the page (the latter is what
`fetch_random_work` would look at; `get_page_count` never consults it). -/
structure HeadingView where
  zeroFound : Bool
  countMatch : Option Nat
deriving DecidableEq, Repr

/-- Parsed view of page 1 of the search results.  `zeroFound` models the
substring test `"0 Found" in heading.text`; `countMatch` models a
successful run of `re.search(r'of\s+([0-9,]+)\s+Works', text)` together
with the integer conversion of its first group. -/
structure Page1Body where
  contentEmpty : Bool
  heading : Option HeadingView
  hasWorkItems : Bool
deriving DecidableEq, Repr

/-- Outcome of the `session.get` call together with everything that can
escape inside the `try` block of `get_page_count`: a timeout
(`requests.exceptions.Timeout`), another transport failure
(`requests.exceptions.RequestException`), any other in-`try` exception
(`except Exception`, e.g. a parser crash or `int('')`), or a completed
response with its status code and parsed body. -/
inductive PageFetch where
  | timeout
  | netError
  | exn
  | ok (status : Nat) (body : Page1Body)
deriving DecidableEq, Repr

/-- `get_page_count` from `ao3_service.py`, as a function of the fetch
outcome for page 1.  Returns the pair `(page_count, error_type)`:
total pages, `0` for the explicit "0 Found" marker, `-1` on error. -/
def get_page_count (fetch : PageFetch) : Int × AO3ErrorType :=
  match fetch with
  | PageFetch.timeout => (-1, AO3ErrorType.TIMEOUT)
  | PageFetch.netError => (-1, AO3ErrorType.NETWORK_ERROR)
  | PageFetch.exn => (-1, AO3ErrorType.PARSE_ERROR)
  | PageFetch.ok status body =>
    if status ≠ 200 then (-1, AO3ErrorType.HTTP_ERROR)
    else if body.contentEmpty then (-1, AO3ErrorType.EMPTY_RESPONSE)
    else
      match body.heading with
      | some h =>
        if h.zeroFound then (0, AO3ErrorType.NONE)
        else
          match h.countMatch with
          | some n => ((pageCountFloat n : Int), AO3ErrorType.NONE)
          | Option.none => (1, AO3ErrorType.NONE)
      | Option.none => (1, AO3ErrorType.NONE)

/-- `_error_to_reason` from `ao3_service.py`: the `mapping.get(...,
"unknown_error")` dictionary lookup, total over the enum. -/
def _error_to_reason (error_type : AO3ErrorType) : String :=
  match error_type with
  | AO3ErrorType.TIMEOUT => "ao3_timeout"
  | AO3ErrorType.EMPTY_RESPONSE => "ao3_empty_response"
  | AO3ErrorType.NETWORK_ERROR => "network_error"
  | AO3ErrorType.HTTP_ERROR => "ao3_http_error"
  | AO3ErrorType.PARSE_ERROR => "ao3_parse_error"
  | AO3ErrorType.NONE => "unknown_error"

/-- The dict `get_random_work_with_fallback` returns: keys `result`,
`source`, `stale`, `error`, `fallback_reason`. -/
structure OrchResult where
  result : Option Item
  source : Option String
  stale : Bool
  error : Option String
  fallback_reason : Option String
deriving DecidableEq, Repr

/-- Cache operations performed during one orchestrator run: a
`get_cached_results` consultation or a `set_cached_results` write. -/
inductive CacheEvent where
  | get (key : String)
  | set (key : String)
deriving DecidableEq, Repr

/-- Step 2 of `get_random_work_with_fallback` (lines 293-313): consult
the cache; on a hit whose `results` value is truthy pick a random
stored work (`ridx` models the `random.choice` draw), otherwise report
the generic unavailability error. -/
def _fallback_cache (file : CacheFile) (cache_key : String) (now : Int)
    (ridx : Nat) (fallback_reason : String) : OrchResult :=
  match get_cached_results file cache_key DEFAULT_TTL_SECONDS now with
  | some cached =>
    match cached.results with
    | some (w :: ws) =>
      { result := some ((w :: ws).get ⟨ridx % (w :: ws).length, Nat.mod_lt ridx (Nat.succ_pos ws.length)⟩),
        source := some "cache", stale := cached.stale,
        error := Option.none, fallback_reason := some fallback_reason }
    | _ =>
      { result := Option.none, source := Option.none, stale := false,
        error := some "AO3 is currently slow or unavailable. Please try again in a few moments.",
        fallback_reason := some fallback_reason }
  | Option.none =>
    { result := Option.none, source := Option.none, stale := false,
      error := some "AO3 is currently slow or unavailable. Please try again in a few moments.",
      fallback_reason := some fallback_reason }

/-- `get_random_work_with_fallback` from `ao3_service.py`.  The results
of its two live steps are inputs: `pageRes` is what `get_page_count`
returned and `workRes` what `fetch_random_work` returned (the latter is
only consulted on the live path).  `fs`, `file` and `now` carry the
machine state, `ridx` the `random.choice` draw used on a cache hit.
Returns the result dict, the cache file afterwards, and the list of
cache operations performed, or `Except.error` when an exception
escapes (which happens only through `set_cached_results`). -/
def get_random_work_with_fallback (tags categories : List String) (fandom : String)
    (pageRes : Int × AO3ErrorType) (workRes : Option Item × AO3ErrorType)
    (fs : FSOracle) (file : CacheFile) (now : Int) (ridx : Nat) :
    Except PyErr (OrchResult × CacheFile × List CacheEvent) :=
  let cache_key := get_cache_key tags categories fandom
  if pageRes.2 = AO3ErrorType.NONE ∧ pageRes.1 > 0 then
    match workRes.1 with
    | some w =>
      if workRes.2 = AO3ErrorType.NONE then
        match set_cached_results fs file cache_key [w] now with
        | Except.error e => Except.error e
        | Except.ok file2 =>
          Except.ok
            ({ result := some w, source := some "live", stale := false,
               error := Option.none, fallback_reason := Option.none },
             file2, [CacheEvent.set cache_key])
      else
        Except.ok
          (_fallback_cache file cache_key now ridx (_error_to_reason workRes.2),
           file, [CacheEvent.get cache_key])
    | Option.none =>
      Except.ok
        (_fallback_cache file cache_key now ridx (_error_to_reason workRes.2),
         file, [CacheEvent.get cache_key])
  else if pageRes.1 = 0 then
    Except.ok
      ({ result := Option.none, source := some "live", stale := false,
         error := some "No works found matching the selected filters.",
         fallback_reason := Option.none },
       file, [])
  else
    Except.ok
      (_fallback_cache file cache_key now ridx (_error_to_reason pageRes.2),
       file, [CacheEvent.get cache_key])

/-- Success of the page-count step as the orchestrator tests it:
`page_error == AO3ErrorType.NONE and page_count > 0`. -/
def PageOk (p : Int × AO3ErrorType) : Prop := p.2 = AO3ErrorType.NONE ∧ p.1 > 0

/-- Success of the item-fetch step as the orchestrator tests it:
`work_error == AO3ErrorType.NONE and work` (a work dict is truthy). -/
def WorkOk (w : Option Item × AO3ErrorType) : Prop :=
  w.1.isSome = true ∧ w.2 = AO3ErrorType.NONE

/-- The live path succeeded end to end. -/
def LiveSuccess (p : Int × AO3ErrorType) (w : Option Item × AO3ErrorType) : Prop :=
  PageOk p ∧ WorkOk w

/-- A live failure: either the item fetch failed after a good page
count, or the page-count step failed (as opposed to reporting zero
results). -/
def LiveFailure (p : Int × AO3ErrorType) (w : Option Item × AO3ErrorType) : Prop :=
  (PageOk p ∧ ¬ WorkOk w) ∨ (¬ PageOk p ∧ p.1 ≠ 0)

lemma alGet_alInsert {α : Type} (m : List (String × α)) (k : String) (v : α) :
    alGet (alInsert m k v) k = some v := by
  induction m with
  | nil => simp [alInsert, alGet]
  | cons hd t ih =>
    obtain ⟨k', v'⟩ := hd
    by_cases h : k' = k
    · subst h
      simp [alInsert, alGet]
    · simp [alInsert, alGet, h, ih]

lemma pySorted_congr_of_perm {l₁ l₂ : List String} (h : l₁.Perm l₂) :
    pySorted l₁ = pySorted l₂ := by
  apply List.eq_of_perm_of_sorted
    (r := fun a b : String => a ≤ b)
    (((List.perm_insertionSort _ l₁).trans h).trans
      (List.perm_insertionSort _ l₂).symm)
  · exact List.sorted_insertionSort _ l₁
  · exact List.sorted_insertionSort _ l₂

lemma sortedOptStr (l : List String) :
    (if l.isEmpty then [] else pySorted l) = pySorted l := by
  cases l with
  | nil => rfl
  | cons a t => rfl

lemma tagsOptStr (t : List String) :
    (if t.isEmpty then [] else pySorted (t.map normTag)) = pySorted (t.map normTag) := by
  cases t with
  | nil => rfl
  | cons a l => rfl

lemma fandomOpt (f : String) :
    (if f = "" then "" else normFandom f) = normFandom f := by
  by_cases h : f = ""
  · subst h
    decide
  · simp [h]

/-- C4: `set_cached_results k r` immediately followed by
`get_cached_results k` before the TTL elapses returns an entry with
`stale = false` and the exact results `r`.  The hypotheses state that
the write persisted (the directory is available and the file write
succeeded) and that the read happens at most `ttl` seconds after the
write. -/
theorem cache_set_get_roundtrip (fs : FSOracle) (file : CacheFile)
    (k : String) (r : List Item) (now now2 ttl : Int)
    (hdir : fs.dirExists = true ∨ fs.mkdirOk = true)
    (hwrite : fs.writeOk = true)
    (hfresh : now2 - now ≤ ttl) :
    ∃ file2, set_cached_results fs file k r now = Except.ok file2 ∧
      get_cached_results file2 k ttl now2 =
        some { results := some r, stale := false, age_seconds := now2 - now } := by
  refine ⟨CacheFile.valid (alInsert (_load_cache file) k
    { results := some r, timestamp := some now }), ?_, ?_⟩
  · unfold set_cached_results _save_cache _ensure_cache_dir
    rcases hdir with h | h <;> simp [h, hwrite]
  · unfold get_cached_results
    simp only [_load_cache, alGet_alInsert]
    simp [entryTruthy, Option.getD, decide_eq_false (not_lt.mpr hfresh)]

/-- Witness for C4 at a concrete input. -/
theorem cache_set_get_roundtrip_witness :
    ((true : Bool) = true ∨ (true : Bool) = true) ∧ (true : Bool) = true ∧
      ((10 : Int) - 0 ≤ 3600) ∧
    ∃ file2,
      set_cached_results { dirExists := true, mkdirOk := true, writeOk := true }
        CacheFile.missing "k" [{ title := "t", author := "a", url := "u", rating := "G", word_count := "1" }] 0 =
        Except.ok file2 ∧
      get_cached_results file2 "k" 3600 10 =
        some { results := some [{ title := "t", author := "a", url := "u", rating := "G", word_count := "1" }],
               stale := false, age_seconds := 10 - 0 } :=
  ⟨Or.inl rfl, rfl, by decide,
    cache_set_get_roundtrip { dirExists := true, mkdirOk := true, writeOk := true }
      CacheFile.missing "k" [{ title := "t", author := "a", url := "u", rating := "G", word_count := "1" }]
      0 10 3600 (Or.inl rfl) rfl (by decide)⟩

/-- C5: the cache key is invariant under reordering of the tag and
category lists and under case and surrounding-whitespace variation of
the tags and the fandom.  The variation hypotheses say that the two tag
lists agree as multisets after per-tag normalisation, the category
lists are permutations of one another, and the fandoms agree after
normalisation. -/
theorem cache_key_permutation_invariant
    (tags₁ tags₂ categories₁ categories₂ : List String) (fandom₁ fandom₂ : String)
    (ht : (tags₁.map normTag).Perm (tags₂.map normTag))
    (hc : categories₁.Perm categories₂)
    (hf : normFandom fandom₁ = normFandom fandom₂) :
    get_cache_key tags₁ categories₁ fandom₁ = get_cache_key tags₂ categories₂ fandom₂ := by
  have hk : key_str tags₁ categories₁ fandom₁ = key_str tags₂ categories₂ fandom₂ := by
    unfold key_str
    rw [tagsOptStr, tagsOptStr, sortedOptStr, sortedOptStr, fandomOpt, fandomOpt,
      pySorted_congr_of_perm ht, pySorted_congr_of_perm hc, hf]
  unfold get_cache_key
  rw [hk]

/-- Witness for C5 at a concrete input. -/
theorem cache_key_permutation_invariant_witness :
    (["a tag", "beta"].map normTag).Perm (["Beta", " A TAG "].map normTag) ∧
      (["M/M", "F/F"] : List String).Perm (["F/F", "M/M"]) ∧
      normFandom "Some Fandom" = normFandom "  some fandom " ∧
    get_cache_key ["a tag", "beta"] ["M/M", "F/F"] "Some Fandom" =
      get_cache_key ["Beta", " A TAG "] ["F/F", "M/M"] "  some fandom " :=
  ⟨by decide, by decide, by decide,
    cache_key_permutation_invariant _ _ _ _ _ _ (by decide) (by decide) (by decide)⟩

/-- C8: on a missing or corrupt cache store, `get_cached_results`
behaves as if the store were empty and returns no entry for any key
(the embedding is total: `_load_cache` catches `JSONDecodeError` and
`IOError` and a missing file is checked for, so nothing raises). -/
theorem cache_get_missing_or_corrupt (k : String) (ttl now : Int) :
    get_cached_results CacheFile.missing k ttl now = Option.none ∧
      get_cached_results CacheFile.corrupt k ttl now = Option.none :=
  ⟨rfl, rfl⟩

/-- C9 counterexample: `set_cached_results` can raise.  When the cache
directory does not exist and `os.makedirs` fails, `_ensure_cache_dir`
raises outside the `try` block of `_save_cache`, and the exception
escapes `set_cached_results` — so a directory-creation failure is not
swallowed, contradicting the claim. -/
theorem cache_set_raises_counterexample :
    set_cached_results { dirExists := false, mkdirOk := false, writeOk := true }
      CacheFile.missing "k" [] 0 = Except.error PyErr.osError := rfl

/-- C9 amended: provided the cache directory exists or can be created,
`set_cached_results` never raises; in particular a failure to write the
cache file is swallowed and leaves the file in its previous state, so
such a failure cannot turn a successful live fetch into a reported
failure. -/
theorem cache_set_no_raise_when_dir_ok (fs : FSOracle) (file : CacheFile)
    (k : String) (r : List Item) (now : Int)
    (hdir : fs.dirExists = true ∨ fs.mkdirOk = true) :
    ∃ file2, set_cached_results fs file k r now = Except.ok file2 ∧
      (fs.writeOk = false → file2 = file) := by
  unfold set_cached_results _save_cache _ensure_cache_dir
  by_cases hw : fs.writeOk = true
  · refine ⟨CacheFile.valid (alInsert (_load_cache file) k
      { results := some r, timestamp := some now }), ?_, ?_⟩
    · rcases hdir with h | h <;> simp [h, hw]
    · intro hfalse
      rw [hfalse] at hw
      cases hw
  · refine ⟨file, ?_, fun _ => rfl⟩
    rcases hdir with h | h <;> simp [h, hw]

/-- Witness for the amended C9 at a concrete input. -/
theorem cache_set_no_raise_when_dir_ok_witness :
    ((false : Bool) = true ∨ (true : Bool) = true) ∧
    ∃ file2,
      set_cached_results { dirExists := false, mkdirOk := true, writeOk := false }
        CacheFile.missing "k" [] 0 = Except.ok file2 ∧
      ((false : Bool) = false → file2 = CacheFile.missing) :=
  ⟨Or.inr rfl,
    cache_set_no_raise_when_dir_ok { dirExists := false, mkdirOk := true, writeOk := false }
      CacheFile.missing "k" [] 0 (Or.inr rfl)⟩
example :
    set_cached_results { dirExists := true, mkdirOk := true, writeOk := true }
      CacheFile.missing "k" [] 7 =
    Except.ok (CacheFile.valid [("k", { results := some [], timestamp := some 7 })]) := by
  rfl

set_option maxHeartbeats 4000000 in
set_option maxRecDepth 8000 in
lemma pageCountFloat_eq_ceil_upto (m : Nat) (hm : m ≤ 2048) :
    pageCountFloat m = (m + 19) / 20 := by
  have h : ((List.range 2049).all (fun i => pageCountFloat i == (i + 19) / 20)) = true := by
    decide
  have hmem : m ∈ List.range 2049 := List.mem_range.mpr (Nat.lt_succ_of_le hm)
  have := List.all_eq_true.mp h m hmem
  exact Nat.eq_of_beq_eq_true (by simpa using this)

/-- C6 counterexample: the page-count computation is
`math.ceil(total_works / 20)` with binary64 true division, not exact
integer ceiling division.  At `totalResults = 20 * 2 ^ 53 + 1` the
float quotient rounds down to `2 ^ 53`, so the resolver reports
`9007199254740992` pages while exact ceiling division gives
`9007199254740993`: the last partial page is dropped, refuting the
"for any non-negative integer n" part of the claim. -/
theorem page_count_ceil_counterexample :
    get_page_count (PageFetch.ok 200 ⟨false, some ⟨false, some 180143985094819841⟩, true⟩) =
      ((9007199254740992 : Int), AO3ErrorType.NONE) ∧
    ((180143985094819841 + 19) / 20 : Nat) = 9007199254740993 := by
  exact ⟨by decide, by decide⟩

/-- C6 amended: when the resolver extracts a total-result count `n`
from page 1, it returns `math.ceil(n / 20)` computed with binary64
floating-point division; this agrees with exact integer ceiling
division for every `n ≤ 2048` (exhaustively checked; in particular
`1 → 1`, `20 → 1`, `21 → 2`), though not for astronomically large
counts. -/
theorem page_count_float_ceil_agree (n : Nat) (hn : n ≤ 2048) (hi : Bool) :
    get_page_count (PageFetch.ok 200 ⟨false, some ⟨false, some n⟩, hi⟩) =
      ((((n + 19) / 20 : Nat) : Int), AO3ErrorType.NONE) := by
  simp [get_page_count, pageCountFloat_eq_ceil_upto n hn]

/-- Witness for the amended C6 at the claim's own particular inputs. -/
theorem page_count_float_ceil_agree_witness :
    (21 ≤ 2048) ∧
    get_page_count (PageFetch.ok 200 ⟨false, some ⟨false, some 21⟩, true⟩) =
      ((2 : Int), AO3ErrorType.NONE) :=
  ⟨by decide, page_count_float_ceil_agree 21 (by decide) true⟩

/-- C7 counterexample: on a successfully loaded page with no
zero-results marker, no extractable count, and no result items at all,
`get_page_count` still returns the defensive `pageCount = 1` success —
the code never consults the result items, refuting the claim that the
default applies only when at least one result item is present. -/
theorem page_count_default_counterexample :
    get_page_count (PageFetch.ok 200 ⟨false, Option.none, false⟩) =
      (1, AO3ErrorType.NONE) ∧
    (Page1Body.mk false Option.none false).hasWorkItems = false := by
  exact ⟨by decide, rfl⟩

/-- C7 amended: when the count cannot be extracted from a successfully
loaded page (status 200, nonempty body) without the zero-results
marker, `get_page_count` always defaults to `pageCount = 1`, regardless
of whether the page contains any result item. -/
theorem page_count_default_unconditional (b : Page1Body)
    (hce : b.contentEmpty = false)
    (hh : b.heading = Option.none ∨
      ∃ hd, b.heading = some hd ∧ hd.zeroFound = false ∧ hd.countMatch = Option.none) :
    get_page_count (PageFetch.ok 200 b) = (1, AO3ErrorType.NONE) := by
  obtain ⟨ce, hdng, hi⟩ := b
  simp only at hce
  subst hce
  rcases hh with hh | ⟨hd, hh, hz, hcm⟩
  · simp only at hh
    subst hh
    simp [get_page_count]
  · simp only at hh
    subst hh
    obtain ⟨z, cm⟩ := hd
    simp only at hz hcm
    subst hz
    subst hcm
    simp [get_page_count]

/-- Witness for the amended C7 at a concrete input. -/
theorem page_count_default_unconditional_witness :
    (Page1Body.mk false (some ⟨false, Option.none⟩) true).contentEmpty = false ∧
    ((Page1Body.mk false (some ⟨false, Option.none⟩) true).heading = Option.none ∨
      ∃ hd, (Page1Body.mk false (some ⟨false, Option.none⟩) true).heading = some hd ∧
        hd.zeroFound = false ∧ hd.countMatch = Option.none) ∧
    get_page_count (PageFetch.ok 200 (Page1Body.mk false (some ⟨false, Option.none⟩) true)) =
      (1, AO3ErrorType.NONE) :=
  ⟨rfl, Or.inr ⟨⟨false, Option.none⟩, rfl, rfl, rfl⟩,
    page_count_default_unconditional (Page1Body.mk false (some ⟨false, Option.none⟩) true)
      rfl (Or.inr ⟨⟨false, Option.none⟩, rfl, rfl, rfl⟩)⟩

lemma fallback_cache_shape (file : CacheFile) (key : String) (now : Int)
    (ridx : Nat) (reason : String) :
    (∃ lk l w, get_cached_results file key DEFAULT_TTL_SECONDS now = some lk ∧
      lk.results = some l ∧ w ∈ l ∧
      _fallback_cache file key now ridx reason =
        { result := some w, source := some "cache", stale := lk.stale,
          error := Option.none, fallback_reason := some reason }) ∨
    _fallback_cache file key now ridx reason =
      { result := Option.none, source := Option.none, stale := false,
        error := some "AO3 is currently slow or unavailable. Please try again in a few moments.",
        fallback_reason := some reason } := by
  unfold _fallback_cache
  cases hgc : get_cached_results file key DEFAULT_TTL_SECONDS now with
  | none => exact Or.inr rfl
  | some cached =>
    dsimp only
    cases hres : cached.results with
    | none => exact Or.inr rfl
    | some l =>
      cases l with
      | nil => exact Or.inr rfl
      | cons w ws => exact Or.inl ⟨cached, w :: ws, _, rfl, hres, List.get_mem _ _ _, rfl⟩

/-- C3: when the page-count step reports zero matching results, the
orchestrator returns terminally with no item, the live source marker,
the "no works found" message and no fallback reason, and the run
performs no cache operation at all (the cache file is returned
unchanged and the event trace is empty). -/
theorem orchestrator_zero_results (tags categories : List String) (fandom : String)
    (pageRes : Int × AO3ErrorType) (workRes : Option Item × AO3ErrorType)
    (fs : FSOracle) (file : CacheFile) (now : Int) (ridx : Nat)
    (hp : pageRes = (0, AO3ErrorType.NONE)) :
    get_random_work_with_fallback tags categories fandom pageRes workRes fs file now ridx =
      Except.ok
        ({ result := Option.none, source := some "live", stale := false,
           error := some "No works found matching the selected filters.",
           fallback_reason := Option.none }, file, []) := by
  subst hp
  simp [get_random_work_with_fallback]

/-- Witness for C3 at a concrete input. -/
theorem orchestrator_zero_results_witness :
    ((0 : Int), AO3ErrorType.NONE) = ((0 : Int), AO3ErrorType.NONE) ∧
    get_random_work_with_fallback [] [] "" ((0 : Int), AO3ErrorType.NONE)
        (Option.none, AO3ErrorType.NONE)
        { dirExists := true, mkdirOk := true, writeOk := true }
        CacheFile.missing 0 0 =
      Except.ok
        ({ result := Option.none, source := some "live", stale := false,
           error := some "No works found matching the selected filters.",
           fallback_reason := Option.none }, CacheFile.missing, []) :=
  ⟨rfl,
    orchestrator_zero_results [] [] "" ((0 : Int), AO3ErrorType.NONE)
      (Option.none, AO3ErrorType.NONE)
      { dirExists := true, mkdirOk := true, writeOk := true }
      CacheFile.missing 0 0 rfl⟩

lemma fallback_cache_result_shape (file : CacheFile) (key : String) (now : Int)
    (ridx : Nat) (reason : String) :
    ((_fallback_cache file key now ridx reason).result.isSome = true ∧
      (_fallback_cache file key now ridx reason).source = some "cache") ∨
    ((_fallback_cache file key now ridx reason).result = Option.none ∧
      (_fallback_cache file key now ridx reason).error.isSome = true) := by
  rcases fallback_cache_shape file key now ridx reason with ⟨lk, l, w, _, _, _, heq⟩ | heq <;>
    rw [heq]
  · exact Or.inl ⟨rfl, rfl⟩
  · exact Or.inr ⟨rfl, rfl⟩

/-- C2: whatever the oracle outcomes of the two live steps and whatever
the cache holds, a returned orchestrator result satisfies exactly one
of: the item is present with source Live or Cache, or the item is
absent with an error message present. -/
theorem orchestrator_result_shape (tags categories : List String) (fandom : String)
    (pageRes : Int × AO3ErrorType) (workRes : Option Item × AO3ErrorType)
    (fs : FSOracle) (file : CacheFile) (now : Int) (ridx : Nat)
    (r : OrchResult) (file2 : CacheFile) (tr : List CacheEvent)
    (h : get_random_work_with_fallback tags categories fandom pageRes workRes fs file now ridx =
      Except.ok (r, file2, tr)) :
    ((r.result.isSome = true ∧ (r.source = some "live" ∨ r.source = some "cache")) ∨
      (r.result = Option.none ∧ r.error.isSome = true)) ∧
    ¬((r.result.isSome = true ∧ (r.source = some "live" ∨ r.source = some "cache")) ∧
      (r.result = Option.none ∧ r.error.isSome = true)) := by
  refine ⟨?_, ?_⟩
  · unfold get_random_work_with_fallback at h
    dsimp only at h
    split at h
    · -- live page-count success
      split at h
      · -- a work dict came back
        split at h
        · -- its error type is NONE: the live path, through the cache write
          split at h
          · exact absurd h (by simp)
          · simp only [Except.ok.injEq, Prod.mk.injEq] at h
            obtain ⟨hr, -, -⟩ := h
            subst hr
            exact Or.inl ⟨rfl, Or.inl rfl⟩
        · -- item fetch reported an error: fallback
          simp only [Except.ok.injEq, Prod.mk.injEq] at h
          obtain ⟨hr, -, -⟩ := h
          subst hr
          rcases fallback_cache_result_shape file
              (get_cache_key tags categories fandom) now ridx
              (_error_to_reason workRes.2) with ⟨h1, h2⟩ | ⟨h1, h2⟩
          · exact Or.inl ⟨h1, Or.inr h2⟩
          · exact Or.inr ⟨h1, h2⟩
      · -- no work dict: fallback
        simp only [Except.ok.injEq, Prod.mk.injEq] at h
        obtain ⟨hr, -, -⟩ := h
        subst hr
        rcases fallback_cache_result_shape file
            (get_cache_key tags categories fandom) now ridx
            (_error_to_reason workRes.2) with ⟨h1, h2⟩ | ⟨h1, h2⟩
        · exact Or.inl ⟨h1, Or.inr h2⟩
        · exact Or.inr ⟨h1, h2⟩
    · -- page-count step not OK
      split at h
      · -- zero results
        simp only [Except.ok.injEq, Prod.mk.injEq] at h
        obtain ⟨hr, -, -⟩ := h
        subst hr
        exact Or.inr ⟨rfl, rfl⟩
      · -- page-count failure: fallback
        simp only [Except.ok.injEq, Prod.mk.injEq] at h
        obtain ⟨hr, -, -⟩ := h
        subst hr
        rcases fallback_cache_result_shape file
            (get_cache_key tags categories fandom) now ridx
            (_error_to_reason pageRes.2) with ⟨h1, h2⟩ | ⟨h1, h2⟩
        · exact Or.inl ⟨h1, Or.inr h2⟩
        · exact Or.inr ⟨h1, h2⟩
  · rintro ⟨⟨hs, -⟩, hn, -⟩
    rw [hn] at hs
    simp at hs

/-- The full-failure record produced when a timed-out live fetch finds
no usable cache entry; used by the C2 witness. -/
def timeoutFailureRecord : OrchResult :=
  { result := Option.none, source := Option.none, stale := false,
    error := some "AO3 is currently slow or unavailable. Please try again in a few moments.",
    fallback_reason := some "ao3_timeout" }

/-- Witness for C2 at a concrete input. -/
theorem orchestrator_result_shape_witness :
    get_random_work_with_fallback [] [] "" ((-1 : Int), AO3ErrorType.TIMEOUT)
        (Option.none, AO3ErrorType.NONE)
        { dirExists := true, mkdirOk := true, writeOk := true }
        CacheFile.missing 0 0 =
      Except.ok (timeoutFailureRecord, CacheFile.missing,
        [CacheEvent.get (get_cache_key [] [] "")]) ∧
    ((timeoutFailureRecord.result.isSome = true ∧
        (timeoutFailureRecord.source = some "live" ∨
         timeoutFailureRecord.source = some "cache")) ∨
      (timeoutFailureRecord.result = Option.none ∧
        timeoutFailureRecord.error.isSome = true)) :=
  ⟨rfl,
    (orchestrator_result_shape [] [] "" ((-1 : Int), AO3ErrorType.TIMEOUT)
      (Option.none, AO3ErrorType.NONE)
      { dirExists := true, mkdirOk := true, writeOk := true }
      CacheFile.missing 0 0 timeoutFailureRecord CacheFile.missing
      [CacheEvent.get (get_cache_key [] [] "")] (by rfl)).1⟩

/-- C1: across every orchestrator run that returns, the cache is
consulted (a `CacheEvent.get` appears in the trace) exactly when the
live path failed (at the page-count step or at the item-fetch step); a
fully successful live path performs only the cache write, the
zero-results outcome performs no cache operation at all, and results
are never merged across sources: a cache-sourced result is one of the
stored cached works and a live-sourced result is the live work (or no
work at all in the zero-results case). -/
theorem orchestrator_cache_precedence (tags categories : List String) (fandom : String)
    (pageRes : Int × AO3ErrorType) (workRes : Option Item × AO3ErrorType)
    (fs : FSOracle) (file : CacheFile) (now : Int) (ridx : Nat)
    (r : OrchResult) (file2 : CacheFile) (tr : List CacheEvent)
    (h : get_random_work_with_fallback tags categories fandom pageRes workRes fs file now ridx =
      Except.ok (r, file2, tr)) :
    ((∃ k, CacheEvent.get k ∈ tr) ↔ LiveFailure pageRes workRes) ∧
    (LiveSuccess pageRes workRes →
      tr = [CacheEvent.set (get_cache_key tags categories fandom)]) ∧
    (pageRes = ((0 : Int), AO3ErrorType.NONE) → tr = []) ∧
    (r.source = some "cache" →
      ∃ lk l w, get_cached_results file (get_cache_key tags categories fandom)
          DEFAULT_TTL_SECONDS now = some lk ∧
        lk.results = some l ∧ w ∈ l ∧ r.result = some w) ∧
    (r.source = some "live" → r.result = Option.none ∨ r.result = workRes.1) := by
  unfold get_random_work_with_fallback at h
  dsimp only at h
  split at h
  case isTrue hc =>
    split at h
    case h_1 w hw1 =>
      split at h
      case isTrue hw2 =>
        split at h
        case h_1 => exact absurd h (by simp)
        case h_2 file2b hset =>
          simp only [Except.ok.injEq, Prod.mk.injEq] at h
          obtain ⟨hr, -, htr⟩ := h
          subst hr
          subst htr
          refine ⟨?_, fun _ => rfl, ?_, ?_, ?_⟩
          · constructor
            · rintro ⟨k, hk⟩
              simp at hk
            · rintro (⟨-, hnw⟩ | ⟨hnp, -⟩)
              · exact absurd ⟨by simp [hw1], hw2⟩ hnw
              · exact absurd hc hnp
          · intro hz
            rw [hz] at hc
            exact absurd hc.2 (by decide)
          · intro hsrc
            exact absurd hsrc (by simp)
          · intro _
            exact Or.inr (by rw [hw1])
      case isFalse hw2 =>
        simp only [Except.ok.injEq, Prod.mk.injEq] at h
        obtain ⟨hr, -, htr⟩ := h
        subst hr
        subst htr
        refine ⟨?_, ?_, ?_, ?_, ?_⟩
        · constructor
          · intro _
            exact Or.inl ⟨hc, fun hwk => hw2 hwk.2⟩
          · intro _
            exact ⟨get_cache_key tags categories fandom, List.mem_singleton.mpr rfl⟩
        · intro hls
          exact absurd hls.2.2 hw2
        · intro hz
          rw [hz] at hc
          exact absurd hc.2 (by decide)
        · intro hsrc
          rcases fallback_cache_shape file (get_cache_key tags categories fandom) now ridx
              (_error_to_reason workRes.2) with ⟨lk, l, w, hgc, hres, hwmem, heq⟩ | heq
          · exact ⟨lk, l, w, hgc, hres, hwmem, by rw [heq]⟩
          · rw [heq] at hsrc
            exact absurd hsrc (by simp)
        · intro hsrc
          rcases fallback_cache_shape file (get_cache_key tags categories fandom) now ridx
              (_error_to_reason workRes.2) with ⟨lk, l, w, hgc, hres, hwmem, heq⟩ | heq <;>
            rw [heq] at hsrc <;> exact absurd hsrc (by simp)
    case h_2 hw1 =>
      simp only [Except.ok.injEq, Prod.mk.injEq] at h
      obtain ⟨hr, -, htr⟩ := h
      subst hr
      subst htr
      refine ⟨?_, ?_, ?_, ?_, ?_⟩
      · constructor
        · intro _
          exact Or.inl ⟨hc, fun hwk => by simp [WorkOk, hw1] at hwk⟩
        · intro _
          exact ⟨get_cache_key tags categories fandom, List.mem_singleton.mpr rfl⟩
      · intro hls
        simp [LiveSuccess, WorkOk, hw1] at hls
      · intro hz
        rw [hz] at hc
        exact absurd hc.2 (by decide)
      · intro hsrc
        rcases fallback_cache_shape file (get_cache_key tags categories fandom) now ridx
            (_error_to_reason workRes.2) with ⟨lk, l, w, hgc, hres, hwmem, heq⟩ | heq
        · exact ⟨lk, l, w, hgc, hres, hwmem, by rw [heq]⟩
        · rw [heq] at hsrc
          exact absurd hsrc (by simp)
      · intro hsrc
        rcases fallback_cache_shape file (get_cache_key tags categories fandom) now ridx
            (_error_to_reason workRes.2) with ⟨lk, l, w, hgc, hres, hwmem, heq⟩ | heq <;>
          rw [heq] at hsrc <;> exact absurd hsrc (by simp)
  case isFalse hnc =>
    split at h
    case isTrue hz =>
      simp only [Except.ok.injEq, Prod.mk.injEq] at h
      obtain ⟨hr, -, htr⟩ := h
      subst hr
      subst htr
      refine ⟨?_, ?_, fun _ => rfl, ?_, ?_⟩
      · constructor
        · rintro ⟨k, hk⟩
          simp at hk
        · rintro (⟨hp, -⟩ | ⟨-, hnz⟩)
          · exact absurd hp hnc
          · exact absurd hz hnz
      · intro hls
        exact absurd hls.1 hnc
      · intro hsrc
        exact absurd hsrc (by simp)
      · intro _
        exact Or.inl rfl
    case isFalse hnz =>
      simp only [Except.ok.injEq, Prod.mk.injEq] at h
      obtain ⟨hr, -, htr⟩ := h
      subst hr
      subst htr
      refine ⟨?_, ?_, ?_, ?_, ?_⟩
      · constructor
        · intro _
          exact Or.inr ⟨hnc, hnz⟩
        · intro _
          exact ⟨get_cache_key tags categories fandom, List.mem_singleton.mpr rfl⟩
      · intro hls
        exact absurd hls.1 hnc
      · intro hz
        rw [hz] at hnz
        exact absurd rfl hnz
      · intro hsrc
        rcases fallback_cache_shape file (get_cache_key tags categories fandom) now ridx
            (_error_to_reason pageRes.2) with ⟨lk, l, w, hgc, hres, hwmem, heq⟩ | heq
        · exact ⟨lk, l, w, hgc, hres, hwmem, by rw [heq]⟩
        · rw [heq] at hsrc
          exact absurd hsrc (by simp)
      · intro hsrc
        rcases fallback_cache_shape file (get_cache_key tags categories fandom) now ridx
            (_error_to_reason pageRes.2) with ⟨lk, l, w, hgc, hres, hwmem, heq⟩ | heq <;>
          rw [heq] at hsrc <;> exact absurd hsrc (by simp)

/-- Witness for C1 at a concrete input (a timed-out page count with an
empty cache: the one cache event is the consultation). -/
theorem orchestrator_cache_precedence_witness :
    get_random_work_with_fallback [] [] "" ((-1 : Int), AO3ErrorType.TIMEOUT)
        (Option.none, AO3ErrorType.NONE)
        { dirExists := true, mkdirOk := true, writeOk := true }
        CacheFile.missing 0 0 =
      Except.ok (timeoutFailureRecord, CacheFile.missing,
        [CacheEvent.get (get_cache_key [] [] "")]) ∧
    ((∃ k, CacheEvent.get k ∈ [CacheEvent.get (get_cache_key [] [] "")]) ↔
      LiveFailure ((-1 : Int), AO3ErrorType.TIMEOUT) (Option.none, AO3ErrorType.NONE)) :=
  ⟨by rfl,
    (orchestrator_cache_precedence [] [] "" ((-1 : Int), AO3ErrorType.TIMEOUT)
      (Option.none, AO3ErrorType.NONE)
      { dirExists := true, mkdirOk := true, writeOk := true }
      CacheFile.missing 0 0 timeoutFailureRecord CacheFile.missing
      [CacheEvent.get (get_cache_key [] [] "")] (by rfl)).1⟩

/-- C10: during fallback after a live failure, a cache entry that
exists for the key but whose `results` value is an empty list or
missing is treated exactly like no entry: the orchestrator returns the
full-failure result (no item, no source, the generic unavailability
message, fallback reason set) instead of a cache-sourced result. -/
theorem orchestrator_empty_cache_entry_full_failure
    (tags categories : List String) (fandom : String)
    (pageRes : Int × AO3ErrorType) (workRes : Option Item × AO3ErrorType)
    (fs : FSOracle) (file : CacheFile) (now : Int) (ridx : Nat)
    (entry : CacheEntryJson)
    (hfail : LiveFailure pageRes workRes)
    (hentry : alGet (_load_cache file) (get_cache_key tags categories fandom) = some entry)
    (hres : entry.results = some [] ∨ entry.results = Option.none) :
    ∃ reason,
      get_random_work_with_fallback tags categories fandom pageRes workRes fs file now ridx =
        Except.ok
          ({ result := Option.none, source := Option.none, stale := false,
             error := some "AO3 is currently slow or unavailable. Please try again in a few moments.",
             fallback_reason := some reason }, file,
           [CacheEvent.get (get_cache_key tags categories fandom)]) := by
  have hfb : ∀ reason, _fallback_cache file (get_cache_key tags categories fandom) now ridx reason =
      { result := Option.none, source := Option.none, stale := false,
        error := some "AO3 is currently slow or unavailable. Please try again in a few moments.",
        fallback_reason := some reason } := by
    intro reason
    unfold _fallback_cache get_cached_results
    dsimp only
    rw [hentry]
    dsimp only
    obtain ⟨res, ts⟩ := entry
    simp only at hres
    rcases hres with hres | hres <;> subst hres
    · simp [entryTruthy]
    · cases ts <;> simp [entryTruthy]
  rcases hfail with ⟨hc, hnw⟩ | ⟨hnp, hnz⟩
  · refine ⟨_error_to_reason workRes.2, ?_⟩
    unfold get_random_work_with_fallback
    dsimp only
    rw [if_pos (show pageRes.2 = AO3ErrorType.NONE ∧ pageRes.1 > 0 from hc)]
    cases hw1 : workRes.1 with
    | none =>
      dsimp only
      rw [hfb]
    | some w =>
      have hw2 : ¬(workRes.2 = AO3ErrorType.NONE) := fun hh => hnw ⟨by simp [hw1], hh⟩
      dsimp only
      rw [if_neg hw2, hfb]
  · refine ⟨_error_to_reason pageRes.2, ?_⟩
    unfold get_random_work_with_fallback
    dsimp only
    rw [if_neg (show ¬(pageRes.2 = AO3ErrorType.NONE ∧ pageRes.1 > 0) from hnp),
      if_neg hnz, hfb]

/-- Witness for C10 at a concrete input: a network-failed page count
and a cache entry holding an empty results list. -/
theorem orchestrator_empty_cache_entry_full_failure_witness :
    LiveFailure ((-1 : Int), AO3ErrorType.NETWORK_ERROR) (Option.none, AO3ErrorType.NONE) ∧
    alGet (_load_cache (CacheFile.valid
        [(get_cache_key [] [] "", { results := some [], timestamp := some 0 })]))
      (get_cache_key [] [] "") =
      some { results := some [], timestamp := some 0 } ∧
    (({ results := some [], timestamp := some 0 } : CacheEntryJson).results = some [] ∨
      ({ results := some [], timestamp := some 0 } : CacheEntryJson).results = Option.none) ∧
    ∃ reason,
      get_random_work_with_fallback [] [] "" ((-1 : Int), AO3ErrorType.NETWORK_ERROR)
          (Option.none, AO3ErrorType.NONE)
          { dirExists := true, mkdirOk := true, writeOk := true }
          (CacheFile.valid [(get_cache_key [] [] "", { results := some [], timestamp := some 0 })])
          0 0 =
        Except.ok
          ({ result := Option.none, source := Option.none, stale := false,
             error := some "AO3 is currently slow or unavailable. Please try again in a few moments.",
             fallback_reason := some reason },
           CacheFile.valid [(get_cache_key [] [] "", { results := some [], timestamp := some 0 })],
           [CacheEvent.get (get_cache_key [] [] "")]) :=
  ⟨Or.inr ⟨fun hp => AO3ErrorType.noConfusion hp.1, by decide⟩,
   by simp [alGet, _load_cache],
   Or.inl rfl,
   orchestrator_empty_cache_entry_full_failure [] [] "" ((-1 : Int), AO3ErrorType.NETWORK_ERROR)
     (Option.none, AO3ErrorType.NONE)
     { dirExists := true, mkdirOk := true, writeOk := true }
     (CacheFile.valid [(get_cache_key [] [] "", { results := some [], timestamp := some 0 })])
     0 0 { results := some [], timestamp := some 0 }
     (Or.inr ⟨fun hp => AO3ErrorType.noConfusion hp.1, by decide⟩)
     (by simp [alGet, _load_cache])
     (Or.inl rfl)⟩
